import Mathlib

/-!
Verification of the ScoreMaster supervisor (runsm.go).

The program is a sequential bootstrap routine plus a few background loops
wrapping child-process invocations.  We embed the decision logic shallowly:

* network probes (`rawPortAvail`, `testWebPort`) are modelled as oracle
  functions `String → Bool` passed to the functions that call them, since
  their outcomes depend on the host OS;
* the generated Caddy configuration file is modelled as the string the
  sequence of `WriteString` calls produces;
* process environments are modelled as partial maps `String → Option String`;
* the respawn loop is modelled by the sequence of shutdown-flag readings at
  each loop head, with explicit fuel, counting interpreter launches;
* `main`'s control flow and the post-signal shutdown sequence are modelled
  as the lists of externally visible actions they perform, in order.
-/

namespace RunSM

/-- Source constant `cgiport = "127.0.0.1:9000"`. -/
def cgiport : String := "127.0.0.1:9000"

/-- Source constant `smCaddyFolder = "caddy"`. -/
def smCaddyFolder : String := "caddy"

/-- The port component extracted in `runPHP` via `strings.Split(cgiport, ":")`
and indexing the split at position 1. -/
def cgiPortNumber : String := (cgiport.splitOn ":").getD 1 ""

/-- The resolved command-line options, one field per flag variable declared in
runsm.go (lines 68-75). -/
structure Config where
  debug : Bool
  cdebug : Bool
  port : String
  alternateWebPort : String
  ipspec : String
  spawnInterval : Nat
  nolocal : Bool
  ipWatch : Bool
deriving DecidableEq

/-- The configuration produced when no flag is supplied: the default value of
each `flag.Bool` / `flag.String` / `flag.Int` declaration. -/
def defaultConfig : Config :=
  { debug := false
    cdebug := false
    port := "80"
    alternateWebPort := "2015"
    ipspec := ""
    spawnInterval := 60
    nolocal := false
    ipWatch := false }

/-- Path `filepath.Join(smCaddyFolder, "error.log")` written into the Caddy
configuration when proxy debugging is on. -/
def errorLogPath : String := smCaddyFolder ++ "/" ++ "error.log"

/-- The full text written to the `caddyfile` by the sequence of `WriteString`
calls in `runCaddy` (lines 301-310), for the configuration whose (already
resolved) port is `cfg.port`. -/
def caddyfileContent (cfg : Config) : String :=
  ("\x7b\nhttp_port " ++ cfg.port ++ "\n"
    ++ (if cfg.cdebug then
          "debug\n" ++ ("log \x7b\noutput file " ++ errorLogPath ++ "\n\x7d\n")
        else "")
    ++ "\x7d\n"
    ++ (cfg.ipspec ++ ":" ++ cfg.port ++ "\n")
    ++ "file_server\n"
    ++ "root sm\n")
  ++ ("php_fastcgi " ++ cgiport ++ "\n")

/-- The port-fallback assignment of `runCaddy` (lines 284-290): when the bind
specification is the wildcard, the primary port fails the listener test, the
two ports differ and the alternate passes the listener test, the port flag is
overwritten with the alternate; otherwise it is left unchanged. -/
def resolvedPort (cfg : Config) (testWeb : String → Bool) : String :=
  if cfg.ipspec = "*" ∧ ¬ testWeb cfg.port ∧
      cfg.port ≠ cfg.alternateWebPort ∧ testWeb cfg.alternateWebPort then
    cfg.alternateWebPort
  else
    cfg.port

/-- `runCaddy` (lines 276-324): with wildcard bind specification and the
primary port already served (the dial probe `rawAvail` reports it busy, i.e.
returns `false`), return early with a nil cancel handle and no file written;
otherwise resolve the port, write the configuration file and start Caddy.
The result carries the configuration after the possible port overwrite and
the file contents.  The oracles `rawAvail` and `testWeb` stand for
`rawPortAvail` and `testWebPort`. -/
def runCaddy (cfg : Config) (rawAvail testWeb : String → Bool) :
    Option (Config × String) :=
  if cfg.ipspec = "*" ∧ ¬ rawAvail cfg.port then
    none
  else
    some ({ cfg with port := resolvedPort cfg testWeb },
          caddyfileContent { cfg with port := resolvedPort cfg testWeb })

/-- A process environment: a partial map from variable names to values. -/
abbrev Env := String → Option String

/-- Setting a variable in an environment.  This is both the effect of
`os.Setenv` on the process's own environment and the effect, on the lookup
semantics of a child's environment slice, of appending an override entry
(the last entry for a duplicated key wins). -/
def setenv (e : Env) (k v : String) : Env :=
  fun q => if q = k then some v else e q

/-- The environment variable `PHP_FCGI_MAX_REQUESTS` used to disable the
interpreter's request-count self-termination. -/
def phpMaxRequestsKey : String := "PHP_FCGI_MAX_REQUESTS"

/-- Environment behaviour of `debugPHP` (lines 206-221): the child command's
environment is `append(os.Environ(), "PHP_FCGI_MAX_REQUESTS=0")`, built from
a copy of the supervisor's environment; the supervisor's own environment is
not written.  Result: (supervisor environment after the call, child
environment). -/
def debugPHP (e : Env) : Env × Env :=
  (e, setenv e phpMaxRequestsKey "0")

/-- Environment of the interpreter child launched by `execPHP` (lines
223-231): `exec.CommandContext` with no explicit `Env` inherits the
supervisor's current environment. -/
def execPHPChildEnv (e : Env) : Env := e

/-- The respawn loop body of `runPHP` (lines 268-272): at each loop head the
shutdown flag is read; if it is `true` the loop stops, otherwise one
interpreter launch (`execPHP`, blocking for one restart interval) is
performed and the loop repeats.  `shut i` is the flag value read at the i-th
loop head; the result is the number of launches performed within `fuel`
iterations. -/
def respawnLoop (shut : Nat → Bool) : Nat → Nat → Nat
  | 0, _ => 0
  | fuel + 1, i => if shut i then 0 else respawnLoop shut fuel (i + 1) + 1

/-- `runPHP` (lines 259-274): if the dial probe reports the CGI port busy
(`rawAvail` returns `false`), return immediately with zero launches and the
environment untouched; otherwise set `PHP_FCGI_MAX_REQUESTS=0` in the
supervisor's own environment via `os.Setenv` and run the respawn loop.
Result: (number of interpreter launches, supervisor environment after). -/
def runPHP (rawAvail : String → Bool) (e : Env) (shut : Nat → Bool)
    (fuel : Nat) : Nat × Env :=
  if ¬ rawAvail cgiPortNumber then
    (0, e)
  else
    (respawnLoop shut fuel 0, setenv e phpMaxRequestsKey "0")

/-- The externally visible steps of the post-signal shutdown path of `main`
(lines 167-178). -/
inductive ShutdownEvent where
  | setFlag
  | caddyStop
  | ebcStop
  | exitNormal
deriving DecidableEq

/-- The order of shutdown steps in `main` after the signal channel delivers
(lines 168-177): set `shuttingDown`; call `killCaddy` only when `cancelCaddy`
is non-nil (the webserver launch returned a cancellation handle); call
`killEBCFetch` only when `cancelEBCFetch` is non-nil; then return from
`main`, i.e. exit normally. -/
def shutdownSequence (caddyStarted ebcStarted : Bool) : List ShutdownEvent :=
  [ShutdownEvent.setFlag]
    ++ (if caddyStarted then [ShutdownEvent.caddyStop] else [])
    ++ (if ebcStarted then [ShutdownEvent.ebcStop] else [])
    ++ [ShutdownEvent.exitNormal]

/-- The externally visible actions of `main` before the shutdown path. -/
inductive MainAction where
  | reportIP
  | debugLaunch
  | caddyLaunch
  | phpLoopStart
  | ebcLaunch
  | invite
  | monitorStart
  | exitZero
  | waitForSignal
deriving DecidableEq

/-- The action sequence of `main` (lines 118-167) as a function of the
configuration and of the platform-dependent `phpdbg` path: optional IP
report; then either the direct debug launch (when the debug flag is set AND
`phpdbg` is non-empty) or the Caddy launch followed by starting the respawn
loop goroutine; then the EBCFetch launch; then the browser invite unless
suppressed; then, when the debug flag is set, `os.Exit(0)`, otherwise the
optional IP monitor start and the blocking wait on the signal channel. -/
def mainFlow (cfg : Config) (phpdbg : String) : List MainAction :=
  (if cfg.ipWatch then [MainAction.reportIP] else [])
    ++ (if cfg.debug ∧ phpdbg ≠ "" then [MainAction.debugLaunch]
        else [MainAction.caddyLaunch, MainAction.phpLoopStart])
    ++ [MainAction.ebcLaunch]
    ++ (if ¬ cfg.nolocal then [MainAction.invite] else [])
    ++ (if cfg.debug then [MainAction.exitZero]
        else (if cfg.ipWatch then [MainAction.monitorStart] else [])
          ++ [MainAction.waitForSignal])

/-! ## Theorems -/

/-- C1: with wildcard bind specification and the dial probe reporting the
primary port free, (a) if the listener test denies the primary port but
grants the alternate port, the port written into the generated configuration
is the alternate port; (b) if the listener test grants the primary port, the
written port is the primary port unchanged. -/
theorem c1_port_resolution (cfg : Config) (rawAvail testWeb : String → Bool)
    (hip : cfg.ipspec = "*") (hraw : rawAvail cfg.port = true) :
    (testWeb cfg.port = false → testWeb cfg.alternateWebPort = true →
      (runCaddy cfg rawAvail testWeb).map (fun r => r.1.port) =
        some cfg.alternateWebPort) ∧
    (testWeb cfg.port = true →
      (runCaddy cfg rawAvail testWeb).map (fun r => r.1.port) =
        some cfg.port) := by
  constructor
  · intro htwp htwa
    have hne : cfg.port ≠ cfg.alternateWebPort := by
      intro h
      rw [h] at htwp
      rw [htwp] at htwa
      exact Bool.false_ne_true htwa
    simp [runCaddy, resolvedPort, hip, hraw, htwp, htwa, hne]
  · intro htwp
    simp [runCaddy, resolvedPort, hip, hraw, htwp]

/-- Witness for C1 at a concrete configuration: wildcard bind, primary port
"80" free but unbindable, alternate "2015" bindable; the resolved port is
"2015". -/
theorem c1_port_resolution_witness :
    (runCaddy { defaultConfig with ipspec := "*" } (fun _ => true)
        (fun s => s == "2015")).map (fun r => r.1.port) = some "2015" :=
  (c1_port_resolution { defaultConfig with ipspec := "*" } (fun _ => true)
    (fun s => s == "2015") rfl rfl).1 (by decide) (by decide)

/-- C9: with wildcard bind specification, the primary port free on the dial
probe but failing the listener test, and the primary port string EQUAL to the
alternate port string, no fallback occurs: the generated configuration keeps
the original primary port. -/
theorem c9_equal_ports (cfg : Config) (rawAvail testWeb : String → Bool)
    (hip : cfg.ipspec = "*") (hraw : rawAvail cfg.port = true)
    (_htw : testWeb cfg.port = false) (heq : cfg.port = cfg.alternateWebPort) :
    (runCaddy cfg rawAvail testWeb).map (fun r => r.1.port) =
      some cfg.port := by
  have hres : resolvedPort cfg testWeb = cfg.port := by
    unfold resolvedPort
    rw [if_neg]
    rintro ⟨-, -, hne, -⟩
    exact hne heq
  simp [runCaddy, hip, hraw, hres]

/-- Witness for C9: primary and alternate port both "80", wildcard bind,
port free on dial but failing the listener test; the resolved port stays
"80". -/
theorem c9_equal_ports_witness :
    (runCaddy { defaultConfig with ipspec := "*", alternateWebPort := "80" }
        (fun _ => true) (fun _ => false)).map (fun r => r.1.port) =
      some "80" :=
  c9_equal_ports { defaultConfig with ipspec := "*", alternateWebPort := "80" }
    (fun _ => true) (fun _ => false) rfl rfl rfl rfl

/-- C8: whenever `runCaddy` writes the configuration file, the written text
ends with a newline-terminated `php_fastcgi` line naming the fixed loopback
endpoint 127.0.0.1:9000. -/
theorem c8_caddyfile_suffix (cfg : Config) (rawAvail testWeb : String → Bool)
    (out : Config × String) (h : runCaddy cfg rawAvail testWeb = some out) :
    ∃ s, out.2 = s ++ "php_fastcgi 127.0.0.1:9000\n" := by
  rw [runCaddy] at h
  split at h
  · exact absurd h (by simp)
  · cases Option.some.inj h
    exact ⟨_, rfl⟩

/-- Witness for C8 at the default configuration (non-wildcard bind, so no
probing): the written file ends with the fixed reverse-proxy line. -/
theorem c8_caddyfile_suffix_witness :
    ∃ s, (defaultConfig, caddyfileContent defaultConfig).2 =
      s ++ "php_fastcgi 127.0.0.1:9000\n" :=
  c8_caddyfile_suffix defaultConfig (fun _ => true) (fun _ => true)
    (defaultConfig, caddyfileContent defaultConfig) rfl

/-- Helper: if the flag readings starting at loop head `i` are `false` for
`k` consecutive heads and `true` at the k-th, and the fuel covers those
heads, the loop performs exactly `k` launches. -/
theorem respawnLoop_count (shut : Nat → Bool) :
    ∀ k fuel i, (∀ j, j < k → shut (i + j) = false) → shut (i + k) = true →
      k < fuel → respawnLoop shut fuel i = k := by
  intro k
  induction k with
  | zero =>
    intro fuel i _ htrue hfuel
    cases fuel with
    | zero => omega
    | succ f =>
      rw [Nat.add_zero] at htrue
      simp [respawnLoop, htrue]
  | succ k ih =>
    intro fuel i hfalse htrue hfuel
    cases fuel with
    | zero => omega
    | succ f =>
      have h0 : shut i = false := by
        have := hfalse 0 (by omega)
        rwa [Nat.add_zero] at this
      have hstep : respawnLoop shut f (i + 1) = k := by
        apply ih f (i + 1)
        · intro j hj
          have := hfalse (j + 1) (by omega)
          rwa [show i + (j + 1) = i + 1 + j by omega] at this
        · rwa [show i + (k + 1) = i + 1 + k by omega] at htrue
        · omega
      simp [respawnLoop, h0, hstep]

/-- C2: with the CGI port free at loop entry, if the shutdown flag reads
`false` at the first `k` loop heads and `true` at the k-th (the flag having
flipped during the k-th launch interval or earlier), the loop performs
exactly `k` interpreter launches — one per interval while the flag is false
and none after it becomes true — for any fuel covering those heads and
regardless of the flag's behaviour between loop heads (in-flight launches
are not cut short, and no new launch follows the flip). -/
theorem c2_respawn_schedule (rawAvail : String → Bool) (e : Env)
    (shut : Nat → Bool) (k fuel : Nat)
    (hfree : rawAvail cgiPortNumber = true)
    (hfalse : ∀ i, i < k → shut i = false) (htrue : shut k = true)
    (hfuel : k < fuel) :
    (runPHP rawAvail e shut fuel).1 = k := by
  have : respawnLoop shut fuel 0 = k := by
    apply respawnLoop_count shut k fuel 0
    · intro j hj
      rw [Nat.zero_add]
      exact hfalse j hj
    · rw [Nat.zero_add]
      exact htrue
    · exact hfuel
  simp [runPHP, hfree, this]

/-- Witness for C2: flag reads false at heads 0 and 1 and true from head 2
on; with fuel 5 the loop launches the interpreter exactly twice. -/
theorem c2_respawn_schedule_witness :
    (runPHP (fun _ => true) (fun _ => none) (fun i => decide (2 ≤ i)) 5).1
      = 2 :=
  c2_respawn_schedule (fun _ => true) (fun _ => none)
    (fun i => decide (2 ≤ i)) 2 5 rfl
    (by intro i hi; simpa using by omega) (by decide) (by decide)

/-- C3: if the dial probe finds a listener already answering on the CGI port
(`rawAvail` reports the port busy by returning `false`), the respawn loop
performs zero launches and returns immediately, leaving the supervisor
environment untouched. -/
theorem c3_occupied_skip (rawAvail : String → Bool) (e : Env)
    (shut : Nat → Bool) (fuel : Nat)
    (hbusy : rawAvail cgiPortNumber = false) :
    runPHP rawAvail e shut fuel = (0, e) := by
  simp [runPHP, hbusy]

/-- Witness for C3: with the probe reporting the port busy, the loop result
is zero launches and the unchanged environment. -/
theorem c3_occupied_skip_witness :
    runPHP (fun _ => false) (fun _ => none) (fun _ => false) 3 =
      (0, fun _ => none) :=
  c3_occupied_skip (fun _ => false) (fun _ => none) (fun _ => false) 3 rfl

/-- C4: in the post-signal shutdown path, the shutdown flag is set first,
the Caddy stop command is issued if and only if the webserver launch
returned a cancellation handle, the EBCFetch stop action is invoked if and
only if the fetch utility was started, the Caddy stop precedes the EBCFetch
stop when both happen, and the normal exit comes last. -/
theorem c4_shutdown_order :
    ∀ c e : Bool,
      (shutdownSequence c e).head? = some ShutdownEvent.setFlag ∧
      (ShutdownEvent.caddyStop ∈ shutdownSequence c e ↔ c = true) ∧
      (ShutdownEvent.ebcStop ∈ shutdownSequence c e ↔ e = true) ∧
      (shutdownSequence c e).getLast? = some ShutdownEvent.exitNormal ∧
      (c = true → e = true →
        List.indexOf ShutdownEvent.caddyStop (shutdownSequence c e) <
          List.indexOf ShutdownEvent.ebcStop (shutdownSequence c e)) := by
  decide

/-- Witness for C4 with both children started: the Caddy stop is present and
precedes the EBCFetch stop. -/
theorem c4_shutdown_order_witness :
    ShutdownEvent.caddyStop ∈ shutdownSequence true true ∧
    List.indexOf ShutdownEvent.caddyStop (shutdownSequence true true) <
      List.indexOf ShutdownEvent.ebcStop (shutdownSequence true true) :=
  ⟨(c4_shutdown_order true true).2.1.mpr rfl,
   (c4_shutdown_order true true).2.2.2.2 rfl rfl⟩

/-- C5 counterexample: with wildcard bind specification, primary port free
but unbindable, and alternate port bindable, `runCaddy` overwrites the port
option after startup: the configuration it leaves behind no longer carries
the startup port value "80". -/
theorem c5_counterexample :
    ¬ ((runCaddy { defaultConfig with ipspec := "*" } (fun _ => true)
          (fun s => s == "2015")).map (fun r => r.1.port) =
        some ({ defaultConfig with ipspec := "*" } : Config).port) := by
  decide

/-- C5 amended: every resolved option other than the listen port keeps its
startup value across the webserver launch; the listen port either keeps its
startup value or is overwritten (once, during the launch) with the startup
value of the alternate port.  No other post-startup operation writes any
option. -/
theorem c5_config_stability (cfg : Config) (rawAvail testWeb : String → Bool)
    (out : Config × String) (h : runCaddy cfg rawAvail testWeb = some out) :
    out.1.debug = cfg.debug ∧ out.1.cdebug = cfg.cdebug ∧
    out.1.alternateWebPort = cfg.alternateWebPort ∧
    out.1.ipspec = cfg.ipspec ∧
    out.1.spawnInterval = cfg.spawnInterval ∧
    out.1.nolocal = cfg.nolocal ∧ out.1.ipWatch = cfg.ipWatch ∧
    (out.1.port = cfg.port ∨ out.1.port = cfg.alternateWebPort) := by
  rw [runCaddy] at h
  split at h
  · exact absurd h (by simp)
  · cases Option.some.inj h
    refine ⟨rfl, rfl, rfl, rfl, rfl, rfl, rfl, ?_⟩
    show resolvedPort cfg testWeb = cfg.port ∨
      resolvedPort cfg testWeb = cfg.alternateWebPort
    unfold resolvedPort
    split
    · exact Or.inr rfl
    · exact Or.inl rfl

/-- Witness for C5 amended at the default configuration, where no probing
happens and the whole configuration is returned unchanged. -/
theorem c5_config_stability_witness :
    (defaultConfig, caddyfileContent defaultConfig).1.debug =
      defaultConfig.debug ∧
    (defaultConfig, caddyfileContent defaultConfig).1.cdebug =
      defaultConfig.cdebug ∧
    (defaultConfig, caddyfileContent defaultConfig).1.alternateWebPort =
      defaultConfig.alternateWebPort ∧
    (defaultConfig, caddyfileContent defaultConfig).1.ipspec =
      defaultConfig.ipspec ∧
    (defaultConfig, caddyfileContent defaultConfig).1.spawnInterval =
      defaultConfig.spawnInterval ∧
    (defaultConfig, caddyfileContent defaultConfig).1.nolocal =
      defaultConfig.nolocal ∧
    (defaultConfig, caddyfileContent defaultConfig).1.ipWatch =
      defaultConfig.ipWatch ∧
    ((defaultConfig, caddyfileContent defaultConfig).1.port =
        defaultConfig.port ∨
      (defaultConfig, caddyfileContent defaultConfig).1.port =
        defaultConfig.alternateWebPort) :=
  c5_config_stability defaultConfig (fun _ => true) (fun _ => true)
    (defaultConfig, caddyfileContent defaultConfig) rfl

/-- C6 counterexample: the default bind-address specification is the empty
string, not the wildcard string "*" the claim states. -/
theorem c6_counterexample : ¬ (defaultConfig.ipspec = "*") := by
  decide

/-- C6 amended: the unsupplied-flag defaults are bind address "" (empty,
standing for wildcard behaviour in the generated site address), port "80",
alternate port "2015", restart interval 60 minutes, interpreter-debug off,
proxy-debug off, browser launch on (nolocal false) and IP watch off. -/
theorem c6_defaults :
    defaultConfig.ipspec = "" ∧ defaultConfig.port = "80" ∧
    defaultConfig.alternateWebPort = "2015" ∧
    defaultConfig.spawnInterval = 60 ∧
    defaultConfig.debug = false ∧ defaultConfig.cdebug = false ∧
    defaultConfig.nolocal = false ∧ defaultConfig.ipWatch = false := by
  decide

/-- C7 counterexample: starting the respawn loop with the CGI port free sets
the request-count override in the SUPERVISOR'S own environment (via
`os.Setenv`), so an initially empty supervisor environment does not stay
unchanged, contradicting the claim that setting the override leaves the
supervisor's environment untouched. -/
theorem c7_counterexample :
    (runPHP (fun _ => true) (fun _ => none) (fun _ => true) 1).2
        phpMaxRequestsKey ≠
      (fun _ => (none : Option String)) phpMaxRequestsKey := by
  simp [runPHP, cgiPortNumber, cgiport, setenv]

/-- C7 amended: in debug mode the override is scoped to the launched child's
invocation — the supervisor environment is returned unchanged and only the
child's environment carries the override — while in the respawn-loop path
the override is written into the supervisor's own process environment (and
is thereby inherited by every interpreter child launched from it); in
neither path is machine-global configuration touched beyond the supervisor
process. -/
theorem c7_env_scoping (e : Env) (shut : Nat → Bool) (fuel : Nat)
    (rawAvail : String → Bool) (hfree : rawAvail cgiPortNumber = true) :
    (debugPHP e).1 = e ∧
    (debugPHP e).2 phpMaxRequestsKey = some "0" ∧
    (runPHP rawAvail e shut fuel).2 phpMaxRequestsKey = some "0" ∧
    execPHPChildEnv (runPHP rawAvail e shut fuel).2 phpMaxRequestsKey =
      some "0" := by
  refine ⟨rfl, ?_, ?_, ?_⟩ <;>
    simp [debugPHP, runPHP, execPHPChildEnv, setenv, hfree]

/-- Witness for C7 amended on the empty environment. -/
theorem c7_env_scoping_witness :
    (debugPHP (fun _ => none)).1 = (fun _ => (none : Option String)) ∧
    (debugPHP (fun _ => none)).2 phpMaxRequestsKey = some "0" ∧
    (runPHP (fun _ => true) (fun _ => none) (fun _ => false) 2).2
        phpMaxRequestsKey = some "0" ∧
    execPHPChildEnv
        (runPHP (fun _ => true) (fun _ => none) (fun _ => false) 2).2
        phpMaxRequestsKey = some "0" :=
  c7_env_scoping (fun _ => none) (fun _ => false) 2 (fun _ => true) rfl

/-- C10: with the interpreter-debug flag set but no debug-capable
interpreter path configured (`phpdbg` empty), `main` skips the direct debug
launch, starts the webserver and the respawn loop exactly as in normal mode,
never reaches the signal wait, and its last action is the normal exit with
status 0 — leaving the started children unsupervised. -/
theorem c10_debug_no_phpdbg (cfg : Config) (hdbg : cfg.debug = true) :
    MainAction.debugLaunch ∉ mainFlow cfg "" ∧
    MainAction.caddyLaunch ∈ mainFlow cfg "" ∧
    MainAction.phpLoopStart ∈ mainFlow cfg "" ∧
    MainAction.waitForSignal ∉ mainFlow cfg "" ∧
    (mainFlow cfg "").getLast? = some MainAction.exitZero := by
  cases hw : cfg.ipWatch <;> cases hn : cfg.nolocal <;>
    simp [mainFlow, hdbg, hw, hn]

/-- Witness for C10 at the default configuration with the debug flag set. -/
theorem c10_debug_no_phpdbg_witness :
    MainAction.debugLaunch ∉ mainFlow { defaultConfig with debug := true } "" ∧
    MainAction.caddyLaunch ∈ mainFlow { defaultConfig with debug := true } "" ∧
    MainAction.phpLoopStart ∈
      mainFlow { defaultConfig with debug := true } "" ∧
    MainAction.waitForSignal ∉
      mainFlow { defaultConfig with debug := true } "" ∧
    (mainFlow { defaultConfig with debug := true } "").getLast? =
      some MainAction.exitZero :=
  c10_debug_no_phpdbg { defaultConfig with debug := true } rfl

end RunSM
